import Mathlib

/-!
Shallow embedding of the vacation-request management backend
(FastAPI application under `backend/app`) and proofs about the claims
of its specification.

Conventions of the embedding:
* Dates (`datetime.date`) are modelled as `Int`, counting days; Python's
  `(d2 - d1).days` becomes `d2 - d1`.
* SQLAlchemy rows become Lean structures; the database tables become
  `List` values; a mutating CRUD call becomes a function from the old
  list to the new list.
* Pydantic optional fields become `Option`; a field that is unset or
  JSON-null is `none` (the handlers under verification only test
  `is not None` / presence, where the two coincide).
* An HTTP handler becomes a function returning an `ApiResult` (status
  code plus body or error detail) together with the updated store.
  A route decorated without an explicit `status_code` keeps FastAPI's
  default success status 200.
-/

/-- Enumeration `app.models.user.UserRole`. -/
inductive UserRole where
  | employee
  | manager
  | admin
deriving DecidableEq, Repr

/-- Enumeration `app.models.vacation_request.RequestStatus`. -/
inductive RequestStatus where
  | pending
  | approved
  | rejected
  | cancelled
deriving DecidableEq, Repr

/-- Row of the `users` table (`app.models.user.User`).  `password` holds
the stored hash.  Ids are modelled as `Nat`. -/
structure User where
  id : Nat
  email : String
  password : String
  full_name : Option String
  role : UserRole
  total_vacation_days : Int
  is_active : Bool
  is_superuser : Bool
deriving DecidableEq, Repr

/-- Row of the `vacation_requests` table
(`app.models.vacation_request.VacationRequest`). -/
structure VacationRequest where
  id : Nat
  start_date : Int
  end_date : Int
  status : RequestStatus
  created_at : Int
  updated_at : Option Int
  reason : Option String
  reviewer_comment : Option String
  requester_id : Nat
  reviewer_id : Option Nat
deriving DecidableEq, Repr

/-- Row of the `notifications` table, restricted to the fields the
verified operations read (`app.models.notification.Notification`). -/
structure Notification where
  id : Nat
  user_id : Nat
  read : Bool
  created_at : Int
deriving DecidableEq, Repr

/-- Result of an HTTP handler: success with a body, or an
`HTTPException` carrying a status code and a `detail` string. -/
inductive ApiResult (α : Type) where
  | ok (statusCode : Nat) (body : α)
  | error (statusCode : Nat) (detail : String)
deriving DecidableEq, Repr

/-- The HTTP status code of an `ApiResult`. -/
def ApiResult.statusOf : ApiResult α → Nat
  | .ok s _ => s
  | .error s _ => s

/-- Python's `x or default` on an `Optional[int]`: both `None` and the
falsy integer `0` fall back to the default (`app.crud.user.create_user`,
`user_in.total_vacation_days or 20`). -/
def pyOrInt (x : Option Int) (default : Int) : Int :=
  match x with
  | none => default
  | some n => if n = 0 then default else n

/-- Modelled from the spec: password hashing is delegated to the external
`passlib` bcrypt context (`app.core.security.get_password_hash`), which is
not part of the repository.  Per spec §4.3 it maps a plaintext to a hash
that verifies against exactly that plaintext; it is idealized here as an
injective tagging function. -/
def get_password_hash (password : String) : String :=
  "bcrypt$" ++ password

/-- Modelled from the spec: `app.core.security.verify_password` delegates
to the external `passlib` bcrypt context; per spec §4.3 it returns true
exactly when the plaintext matches the hash. -/
def verify_password (plain_password hashed_password : String) : Bool :=
  hashed_password == get_password_hash plain_password

/-- Operation `app.crud.user.get_user_by_email`: `SELECT ... WHERE email = :email`,
`.scalars().first()`. -/
def get_user_by_email (users : List User) (email : String) : Option User :=
  users.find? (fun u => u.email == email)

/-- Operation `app.crud.user.get_user`: lookup by primary key. -/
def get_user (users : List User) (user_id : Nat) : Option User :=
  users.find? (fun u => u.id == user_id)

/-- Creation payload `app.schemas.user.UserCreate`. -/
structure UserCreate where
  email : String
  password : String
  full_name : Option String
  role : UserRole
  is_active : Bool
  is_superuser : Bool
  total_vacation_days : Option Int
deriving DecidableEq, Repr

/-- Operation `app.crud.user.create_user`: rejects a duplicate email with a
`ValueError`, hashes the password, applies the default allowance of 20
through Python's `or`, inserts the new row. -/
def create_user (users : List User) (user_in : UserCreate) (newId : Nat) :
    Except String (List User × User) :=
  match get_user_by_email users user_in.email with
  | some _ => .error ("El email " ++ user_in.email ++ " ya está registrado")
  | none =>
    let user : User :=
      { id := newId
        email := user_in.email
        password := get_password_hash user_in.password
        full_name := user_in.full_name
        role := user_in.role
        total_vacation_days := pyOrInt user_in.total_vacation_days 20
        is_active := user_in.is_active
        is_superuser := user_in.is_superuser }
    .ok (users ++ [user], user)

/-- Operation `app.crud.user.authenticate_user`: look up by email, then verify the
password against the stored hash; `None` on either failure. -/
def authenticate_user (users : List User) (email password : String) :
    Option User :=
  match get_user_by_email users email with
  | none => none
  | some user => if verify_password password user.password then some user else none

/-- Operation `app.crud.user.delete_user`: load by id; absent gives `None`,
otherwise the row is removed and returned. -/
def delete_user (users : List User) (user_id : Nat) :
    Option (User × List User) :=
  match get_user users user_id with
  | none => none
  | some user => some (user, users.eraseP (fun u => u.id == user_id))

/-- Endpoint DELETE /users/:user_id (`delete_specific_user` in
`app.api.api_v1.endpoints.users`).  Dependency chain
`get_current_superuser` requires an active superuser (403 otherwise).
The handler 400s on self-deletion before touching the store, 404s when
the target is absent, and otherwise returns the deleted row; the route
decorator declares `response_model=UserSchema` and no `status_code`, so
the success response is FastAPI's default 200 carrying the deleted
user's representation. -/
def deleteSpecificUserRoute (current_user : User) (user_id : Nat)
    (users : List User) : ApiResult User × List User :=
  if !current_user.is_active then
    (.error 403 "Usuario inactivo", users)
  else if !current_user.is_superuser then
    (.error 403 "No tienes permisos suficientes", users)
  else if user_id == current_user.id then
    (.error 400 "No puedes eliminar tu propio usuario", users)
  else
    match delete_user users user_id with
    | none => (.error 404 "Usuario no encontrado", users)
    | some (user, users') => (.ok 200 user, users')

/-- Property `app.models.vacation_request.VacationRequest.days_requested`: 0 when
either date is missing, otherwise the inclusive day count
`(end_date - start_date).days + 1`. -/
def days_requested (start_date end_date : Option Int) : Int :=
  match start_date, end_date with
  | some s, some e => (e - s) + 1
  | _, _ => 0

/-- Creation payload `app.schemas.vacation_request.VacationRequestCreate`. -/
structure VacationRequestCreate where
  start_date : Int
  end_date : Int
  reason : Option String
deriving DecidableEq, Repr

/-- The pydantic validator `end_date_must_be_after_start_date` on
`VacationRequestBase`: the payload is accepted iff `end_date` is not
before `start_date`. -/
def createValidatorOk (c : VacationRequestCreate) : Bool :=
  decide (c.start_date ≤ c.end_date)

/-- Update payload `app.schemas.vacation_request.VacationRequestUpdate`:
every field optional. -/
structure VacationRequestUpdate where
  start_date : Option Int
  end_date : Option Int
  status : Option RequestStatus
  reason : Option String
  reviewer_comment : Option String
deriving DecidableEq, Repr

/-- The pydantic validator on `VacationRequestUpdate`
(`if v and 'start_date' in values and values['start_date'] and
v < values['start_date']`): it only compares the two dates when BOTH are
supplied (date objects are always truthy, so only `None` is falsy); a
payload carrying a single date is accepted unconditionally. -/
def updateValidatorOk (u : VacationRequestUpdate) : Bool :=
  match u.start_date, u.end_date with
  | some s, some e => decide (s ≤ e)
  | _, _ => true

/-- Operation `app.crud.vacation_request.create_vacation_request`: inserts a row
with the payload's dates and reason, the given requester,
`status=PENDING` and `created_at=date.today()`. -/
def create_vacation_request (obj_in : VacationRequestCreate)
    (requester_id : Nat) (newId : Nat) (today : Int) : VacationRequest :=
  { id := newId
    start_date := obj_in.start_date
    end_date := obj_in.end_date
    status := .pending
    created_at := today
    updated_at := none
    reason := obj_in.reason
    reviewer_comment := none
    requester_id := requester_id
    reviewer_id := none }

/-- Operation `app.crud.vacation_request.update_vacation_request`: when the payload
carries a status different from the stored one, stamp
`updated_at=date.today()` and, when a reviewer id was supplied (a UUID,
always truthy, so only `None` is skipped), assign it; then apply every
supplied non-null field. -/
def update_vacation_request (db_obj : VacationRequest)
    (obj_in : VacationRequestUpdate) (reviewer_id : Option Nat)
    (today : Int) : VacationRequest :=
  let statusChanging : Bool :=
    match obj_in.status with
    | some st => st != db_obj.status
    | none => false
  let db1 :=
    if statusChanging then
      { db_obj with
        updated_at := some today
        reviewer_id :=
          match reviewer_id with
          | some r => some r
          | none => db_obj.reviewer_id }
    else db_obj
  { db1 with
    start_date := obj_in.start_date.getD db1.start_date
    end_date := obj_in.end_date.getD db1.end_date
    status :=
      match obj_in.status with
      | some st => st
      | none => db1.status
    reason :=
      match obj_in.reason with
      | some r => some r
      | none => db1.reason
    reviewer_comment :=
      match obj_in.reviewer_comment with
      | some c => some c
      | none => db1.reviewer_comment }

/-- Operation `app.crud.vacation_request.get_vacation_request`: lookup by id. -/
def get_vacation_request (requests : List VacationRequest) (id : Nat) :
    Option VacationRequest :=
  requests.find? (fun r => r.id == id)

/-- Serialized response body `app.schemas.vacation_request.VacationRequest`:
the stored fields plus the computed `days_requested`. -/
structure VacationRequestOut where
  id : Nat
  start_date : Int
  end_date : Int
  reason : Option String
  requester_id : Nat
  status : RequestStatus
  created_at : Int
  updated_at : Option Int
  reviewer_id : Option Nat
  reviewer_comment : Option String
  days_requested : Int
deriving DecidableEq, Repr

/-- Response serialization through the `VacationRequest` response model:
`days_requested` is read off the ORM row's property. -/
def serializeVacationRequest (r : VacationRequest) : VacationRequestOut :=
  { id := r.id
    start_date := r.start_date
    end_date := r.end_date
    reason := r.reason
    requester_id := r.requester_id
    status := r.status
    created_at := r.created_at
    updated_at := r.updated_at
    reviewer_id := r.reviewer_id
    reviewer_comment := r.reviewer_comment
    days_requested := days_requested (some r.start_date) (some r.end_date) }

/-- The 400 detail of the allowance check in
`app.api.api_v1.endpoints.vacation_requests`. -/
def insufficientDaysDetail (requested available : Int) : String :=
  "You don't have enough days available. Requested: " ++ toString requested
    ++ ", Available: " ++ toString available

/-- Endpoint POST /vacation-requests/ (`create_vacation_request` handler).
Dependency `get_current_active_user` rejects inactive callers with 403.
The handler computes the inclusive day count, rejects it with 400 when
it exceeds the caller's allowance (leaving the store untouched), and
otherwise persists the row.  The route decorator declares
`response_model=VacationRequest` and no `status_code`, so the success
response is FastAPI's default 200.  (The notification fan-out to
managers does not touch the `vacation_requests` table and is outside
this embedding.) -/
def createVacationRequestRoute (current_user : User)
    (request_in : VacationRequestCreate) (requests : List VacationRequest)
    (newId : Nat) (today : Int) :
    ApiResult VacationRequestOut × List VacationRequest :=
  if !current_user.is_active then
    (.error 403 "Usuario inactivo", requests)
  else
    let delta := (request_in.end_date - request_in.start_date) + 1
    if delta > current_user.total_vacation_days then
      (.error 400 (insufficientDaysDetail delta current_user.total_vacation_days),
        requests)
    else
      let vr := create_vacation_request request_in current_user.id newId today
      (.ok 200 (serializeVacationRequest vr), requests ++ [vr])

/-- Endpoint PUT /vacation-requests/:request_id (`update_vacation_request`
handler).  Dependency `get_current_active_user`; then, in source order:
404 when the id is absent; 403 when the caller is neither owner nor
manager/admin; 403 when an owner-but-not-privileged caller touches a
non-pending request; 403 when such a caller supplies a status; 400 when
the (merged) dates exceed the owner's allowance; otherwise the CRUD
update is applied with the caller as reviewer only for managers/admins,
and the row is replaced in the store (success status: FastAPI default
200). -/
def updateVacationRequestRoute (current_user : User) (request_id : Nat)
    (request_in : VacationRequestUpdate) (requests : List VacationRequest)
    (today : Int) : ApiResult VacationRequestOut × List VacationRequest :=
  if !current_user.is_active then
    (.error 403 "Usuario inactivo", requests)
  else
    match get_vacation_request requests request_id with
    | none => (.error 404 "Request not found", requests)
    | some request =>
      let is_manager_or_admin :=
        current_user.role = UserRole.manager ∨ current_user.role = UserRole.admin
      let is_owner := request.requester_id = current_user.id
      if ¬is_owner ∧ ¬is_manager_or_admin then
        (.error 403 "You don't have permission to update this request", requests)
      else if is_owner ∧ ¬is_manager_or_admin ∧ request.status ≠ .pending then
        (.error 403 "You can only modify pending requests", requests)
      else if is_owner ∧ ¬is_manager_or_admin ∧ request_in.status.isSome then
        (.error 403 "You cannot change the status of the request", requests)
      else
        let datesChanging := request_in.start_date.isSome ∨ request_in.end_date.isSome
        let start_date := request_in.start_date.getD request.start_date
        let end_date := request_in.end_date.getD request.end_date
        let delta := (end_date - start_date) + 1
        if datesChanging ∧ is_owner ∧ delta > current_user.total_vacation_days then
          (.error 400 (insufficientDaysDetail delta current_user.total_vacation_days),
            requests)
        else
          let updated := update_vacation_request request request_in
            (if is_manager_or_admin then some current_user.id else none) today
          (.ok 200 (serializeVacationRequest updated),
            requests.map (fun r => if r.id == request_id then updated else r))

/-- Endpoint PUT /vacation-requests/:request_id/review (`review_vacation_request`
handler).  Dependency `get_current_manager_or_admin` (403 for inactive
or unprivileged callers); 404 when the id is absent; otherwise the CRUD
update is applied with the caller as reviewer, with no date or status
re-validation (success status: FastAPI default 200). -/
def reviewVacationRequestRoute (current_user : User) (request_id : Nat)
    (request_in : VacationRequestUpdate) (requests : List VacationRequest)
    (today : Int) : ApiResult VacationRequestOut × List VacationRequest :=
  if !current_user.is_active then
    (.error 403 "Usuario inactivo", requests)
  else if ¬(current_user.role = UserRole.manager ∨ current_user.role = UserRole.admin) then
    (.error 403 "Se requieren permisos de administrador o manager", requests)
  else
    match get_vacation_request requests request_id with
    | none => (.error 404 "Request not found", requests)
    | some request =>
      let updated := update_vacation_request request request_in
        (some current_user.id) today
      (.ok 200 (serializeVacationRequest updated),
        requests.map (fun r => if r.id == request_id then updated else r))

/-- Ordering used by `order_by(Notification.created_at.desc())`: `a`
comes before `b` when `a.created_at ≥ b.created_at`. -/
def notifDescOrder (a b : Notification) : Prop :=
  b.created_at ≤ a.created_at

instance : DecidableRel notifDescOrder :=
  fun a b => inferInstanceAs (Decidable (b.created_at ≤ a.created_at))

/-- Operation `app.crud.notification.get_user_notifications`: filter by owner,
optionally by unread, order by `created_at` descending, then apply
`offset(skip).limit(limit)`. -/
def get_user_notifications (notifs : List Notification) (user_id : Nat)
    (skip limit : Nat) (unread_only : Bool) : List Notification :=
  let q := notifs.filter (fun n => n.user_id == user_id)
  let q := if unread_only then q.filter (fun n => n.read == false) else q
  (((q.insertionSort notifDescOrder).drop skip).take limit)

/-- Operation `app.crud.notification.get_unread_count`: the number of the user's
rows with `read == False`. -/
def get_unread_count (notifs : List Notification) (user_id : Nat) : Nat :=
  (notifs.filter (fun n =>
    n.user_id == user_id && n.read == false)).length

/-- Operation `app.crud.notification.mark_all_as_read`: load the user's unread
notifications with `limit=1000`, set each loaded row to read (one
commit), return how many were loaded.  Returns the new table and the
count. -/
def mark_all_as_read (notifs : List Notification) (user_id : Nat) :
    List Notification × Nat :=
  let selected := get_user_notifications notifs user_id 0 1000 true
  let ids := selected.map (fun n => n.id)
  (notifs.map (fun n => if ids.contains n.id then { n with read := true } else n),
    selected.length)

/-- Endpoint PATCH /notifications/mark-all-as-read
(`mark_all_notifications_as_read` handler): dependency
`get_current_active_user`, then delegate to the CRUD operation for the
caller. -/
def markAllNotificationsAsReadRoute (current_user : User)
    (notifs : List Notification) : ApiResult Nat × List Notification :=
  if !current_user.is_active then
    (.error 403 "Usuario inactivo", notifs)
  else
    let result := mark_all_as_read notifs current_user.id
    (.ok 200 result.2, result.1)

/-! Concrete fixtures used by witnesses and counterexamples. -/

/-- An active employee with a 5-day allowance. -/
def c1User : User :=
  { id := 10, email := "alice@example.com", password := "bcrypt$alicepw"
    full_name := some "Alice", role := .employee, total_vacation_days := 5
    is_active := true, is_superuser := false }

/-- A 10-day creation payload (days 0 through 9 inclusive). -/
def c1Payload : VacationRequestCreate :=
  { start_date := 0, end_date := 9, reason := some "trip" }

/-- An active employee with the default 20-day allowance. -/
def c4User : User :=
  { id := 11, email := "carol@example.com", password := "bcrypt$carolpw"
    full_name := none, role := .employee, total_vacation_days := 20
    is_active := true, is_superuser := false }

/-- A valid 5-day creation payload. -/
def c4Payload : VacationRequestCreate :=
  { start_date := 0, end_date := 4, reason := some "summer" }

/-- An active admin superuser. -/
def c5Admin : User :=
  { id := 1, email := "admin@example.com", password := "bcrypt$admin123"
    full_name := some "Admin", role := .admin, total_vacation_days := 30
    is_active := true, is_superuser := true }

/-- A second stored user, distinct from the superuser. -/
def c5Target : User :=
  { id := 2, email := "worker@example.com", password := "bcrypt$workerpw"
    full_name := none, role := .employee, total_vacation_days := 20
    is_active := true, is_superuser := false }

/-- An active superuser whose role is plain employee. -/
def c8User : User :=
  { id := 3, email := "super@example.com", password := "bcrypt$superpw"
    full_name := none, role := .employee, total_vacation_days := 20
    is_active := true, is_superuser := true }

/-- A creation payload that explicitly sets the allowance to 0. -/
def c10Create : UserCreate :=
  { email := "zero@example.com", password := "pw", full_name := none
    role := .employee, is_active := true, is_superuser := false
    total_vacation_days := some 0 }

/-- The row `create_user` stores for `c10Create` under id 7. -/
def c10Stored : User :=
  { id := 7, email := "zero@example.com", password := "bcrypt$pw"
    full_name := none, role := .employee, total_vacation_days := 20
    is_active := true, is_superuser := false }

/-- A creation payload for the authentication round-trip. -/
def c7Create : UserCreate :=
  { email := "bob@example.com", password := "secret", full_name := none
    role := .employee, is_active := true, is_superuser := false
    total_vacation_days := none }

/-- The row `create_user` stores for `c7Create` under id 3. -/
def c7Stored : User :=
  { id := 3, email := "bob@example.com", password := "bcrypt$secret"
    full_name := none, role := .employee, total_vacation_days := 20
    is_active := true, is_superuser := false }

/-- An active employee owning the request of the date-invariant
counterexample. -/
def c2Owner : User :=
  { id := 12, email := "dave@example.com", password := "bcrypt$davepw"
    full_name := none, role := .employee, total_vacation_days := 20
    is_active := true, is_superuser := false }

/-- A stored pending request covering days 10 through 12. -/
def c2Req : VacationRequest :=
  { id := 1, start_date := 10, end_date := 12, status := .pending
    created_at := 0, updated_at := none, reason := none
    reviewer_comment := none, requester_id := 12, reviewer_id := none }

/-- An update payload carrying only a new start date (day 20, after the
stored end date 12); the pydantic validator accepts it because the end
date is absent. -/
def c2Payload : VacationRequestUpdate :=
  { start_date := some 20, end_date := none, status := none
    reason := none, reviewer_comment := none }

/-- An active employee used by the owner-update claim. -/
def c6Owner : User :=
  { id := 13, email := "erin@example.com", password := "bcrypt$erinpw"
    full_name := none, role := .employee, total_vacation_days := 20
    is_active := true, is_superuser := false }

/-- A stored pending request owned by `c6Owner`. -/
def c6Req : VacationRequest :=
  { id := 4, start_date := 0, end_date := 2, status := .pending
    created_at := 0, updated_at := none, reason := some "old reason"
    reviewer_comment := none, requester_id := 13, reviewer_id := none }

/-- An owner update that moves the dates and rewrites the reason. -/
def c6GoodPayload : VacationRequestUpdate :=
  { start_date := some 5, end_date := some 7, status := none
    reason := some "new reason", reviewer_comment := none }

/-- An owner update that attempts to set the status. -/
def c6StatusPayload : VacationRequestUpdate :=
  { start_date := none, end_date := none, status := some .approved
    reason := none, reviewer_comment := none }

/-- An active user owning the notifications of the mark-all fixtures. -/
def c3User : User :=
  { id := 1, email := "frank@example.com", password := "bcrypt$frankpw"
    full_name := none, role := .employee, total_vacation_days := 20
    is_active := true, is_superuser := false }

/-- A store of 1001 unread notifications for user 1, all with the same
timestamp, exceeding the 1000-row limit of `mark_all_as_read`. -/
def c3Notifs : List Notification :=
  (List.range 1001).map (fun i => { id := i, user_id := 1, read := false, created_at := 0 })

/-- The store `c3Notifs` after the first mark-all call: the 1000 loaded
rows are read, one row is left unread. -/
def c3Marked : List Notification :=
  (List.range 1001).map (fun i =>
    if i < 1000 then { id := i, user_id := 1, read := true, created_at := 0 }
    else { id := i, user_id := 1, read := false, created_at := 0 })

/-- A single unread notification for user 1, used by the mark-all
witness. -/
def c3OneNotif : Notification :=
  { id := 42, user_id := 1, read := false, created_at := 0 }

/-! Theorems settling the claims. -/

/-- C9: for every vacation request with both dates set, the computed
`days_requested` equals the inclusive day count, end minus start in days
plus one; a request from a date to the same date counts one day. -/
theorem days_requested_is_inclusive_count :
    (∀ s e : Int, days_requested (some s) (some e) = (e - s) + 1) ∧
    (∀ d : Int, days_requested (some d) (some d) = 1) := by
  constructor
  · intro s e; rfl
  · intro d; simp [days_requested]

/-- C10: when the creation payload explicitly sets `total_vacation_days`
to 0, `create_user` stores 20 instead of 0, because the Python default
is applied through `or`, which treats 0 as falsy exactly like the unset
value `None`. -/
theorem create_user_zero_allowance_stored_as_20 :
    ∀ (users : List User) (user_in : UserCreate) (newId : Nat)
      (users' : List User) (u : User),
      (user_in.total_vacation_days = some 0 ∨ user_in.total_vacation_days = none) →
      create_user users user_in newId = .ok (users', u) →
      u.total_vacation_days = 20 := by
  intro users user_in newId users' u h0 hok
  unfold create_user at hok
  cases hfind : get_user_by_email users user_in.email <;> rw [hfind] at hok
  · simp at hok
    obtain ⟨-, hu⟩ := hok
    rw [← hu]
    rcases h0 with h0 | h0 <;> simp [pyOrInt, h0]
  · simp at hok

/-- Witness for C10 at a concrete creation. -/
theorem create_user_zero_allowance_stored_as_20_witness :
    c10Create.total_vacation_days = some 0 ∧
    create_user [] c10Create 7 = .ok ([c10Stored], c10Stored) ∧
    c10Stored.total_vacation_days = 20 :=
  ⟨rfl, rfl,
    create_user_zero_allowance_stored_as_20 [] c10Create 7 [c10Stored] c10Stored
      (Or.inl rfl) rfl⟩

/-- C1: for an authenticated active caller whose requested inclusive day
count exceeds the allowance, POST /vacation-requests/ returns 400 with a
detail naming the requested and available counts, and the request store
is unchanged. -/
theorem vacation_create_insufficient_days_400_store_unchanged :
    ∀ (cu : User) (request_in : VacationRequestCreate)
      (requests : List VacationRequest) (newId : Nat) (today : Int),
      cu.is_active = true →
      (request_in.end_date - request_in.start_date) + 1 > cu.total_vacation_days →
      createVacationRequestRoute cu request_in requests newId today =
        (.error 400 (insufficientDaysDetail
          ((request_in.end_date - request_in.start_date) + 1) cu.total_vacation_days),
          requests) := by
  intro cu request_in requests newId today hact hgt
  simp [createVacationRequestRoute, hact, hgt]

/-- Witness for C1 at a concrete over-allowance creation. -/
theorem vacation_create_insufficient_days_400_store_unchanged_witness :
    c1User.is_active = true ∧
    (c1Payload.end_date - c1Payload.start_date) + 1 > c1User.total_vacation_days ∧
    createVacationRequestRoute c1User c1Payload [] 1 0 =
      (.error 400 (insufficientDaysDetail
        ((c1Payload.end_date - c1Payload.start_date) + 1) c1User.total_vacation_days), []) :=
  ⟨rfl, by decide,
    vacation_create_insufficient_days_400_store_unchanged c1User c1Payload [] 1 0 rfl (by decide)⟩

/-- C4, counterexample: a concrete valid creation (5 days against a
20-day allowance) is answered with HTTP status 200, not 201 — the route
decorator declares no `status_code`, so FastAPI uses its default. -/
theorem vacation_create_success_status_is_200_not_201 :
    (createVacationRequestRoute c4User c4Payload [] 1 0).1.statusOf = 200 ∧
    ¬ (createVacationRequestRoute c4User c4Payload [] 1 0).1.statusOf = 201 := by
  constructor
  · rfl
  · intro h
    simp [createVacationRequestRoute, c4User, c4Payload, ApiResult.statusOf] at h

/-- C4, amended: every valid creation (validator-accepted dates within
the allowance by an active caller) is answered with HTTP status 200 and
a body carrying the created resource, including the computed
`days_requested`. -/
theorem vacation_create_valid_returns_200_with_days :
    ∀ (cu : User) (request_in : VacationRequestCreate)
      (requests : List VacationRequest) (newId : Nat) (today : Int),
      cu.is_active = true →
      createValidatorOk request_in = true →
      ¬((request_in.end_date - request_in.start_date) + 1 > cu.total_vacation_days) →
      createVacationRequestRoute cu request_in requests newId today =
        (.ok 200 (serializeVacationRequest (create_vacation_request request_in cu.id newId today)),
          requests ++ [create_vacation_request request_in cu.id newId today]) ∧
      (serializeVacationRequest (create_vacation_request request_in cu.id newId today)).days_requested
        = (request_in.end_date - request_in.start_date) + 1 := by
  intro cu request_in requests newId today hact _hval hle
  constructor
  · simp [createVacationRequestRoute, hact, hle]
  · simp [serializeVacationRequest, create_vacation_request, days_requested]

/-- Witness for the amended C4 at a concrete valid creation. -/
theorem vacation_create_valid_returns_200_with_days_witness :
    c4User.is_active = true ∧
    createValidatorOk c4Payload = true ∧
    ¬((c4Payload.end_date - c4Payload.start_date) + 1 > c4User.total_vacation_days) ∧
    (createVacationRequestRoute c4User c4Payload [] 1 0 =
        (.ok 200 (serializeVacationRequest (create_vacation_request c4Payload c4User.id 1 0)),
          [] ++ [create_vacation_request c4Payload c4User.id 1 0]) ∧
      (serializeVacationRequest (create_vacation_request c4Payload c4User.id 1 0)).days_requested
        = (c4Payload.end_date - c4Payload.start_date) + 1) :=
  ⟨rfl, by decide, by decide,
    vacation_create_valid_returns_200_with_days c4User c4Payload [] 1 0 rfl (by decide) (by decide)⟩

/-- C5, code evaluation at the failing input: a superuser deleting
another existing user gets HTTP 200 with the deleted user's
representation in the body — not the 204 No Content with empty body
that the claim (and the repository's own `test_delete_user`) states. -/
theorem delete_user_success_returns_200_with_deleted_body :
    deleteSpecificUserRoute c5Admin 2 [c5Admin, c5Target] =
      (.ok 200 c5Target, [c5Admin]) := by
  rfl

/-- C8: a caller that reaches the delete endpoint (active superuser, any
role) targeting their own id always gets 400 and the user store is
unchanged. -/
theorem self_delete_always_400_store_unchanged :
    ∀ (cu : User) (users : List User),
      cu.is_active = true → cu.is_superuser = true →
      deleteSpecificUserRoute cu cu.id users =
        (.error 400 "No puedes eliminar tu propio usuario", users) := by
  intro cu users hact hsup
  simp [deleteSpecificUserRoute, hact, hsup]

/-- Witness for C8: a superuser with plain employee role deleting
themselves. -/
theorem self_delete_always_400_store_unchanged_witness :
    c8User.is_active = true ∧ c8User.is_superuser = true ∧
    deleteSpecificUserRoute c8User c8User.id [c8User, c5Target] =
      (.error 400 "No puedes eliminar tu propio usuario", [c8User, c5Target]) :=
  ⟨rfl, rfl, self_delete_always_400_store_unchanged c8User [c8User, c5Target] rfl rfl⟩

/-- Helper: the idealized bcrypt hash is injective. -/
theorem get_password_hash_inj {p q : String}
    (h : get_password_hash p = get_password_hash q) : p = q := by
  unfold get_password_hash at h
  have hd := congrArg String.data h
  simp [String.data_append] at hd
  exact String.ext hd

/-- Helper: `find?` on an appended list skips a prefix with no match. -/
theorem find?_append_of_none {α : Type} {p : α → Bool} {l₁ l₂ : List α}
    (h : l₁.find? p = none) : (l₁ ++ l₂).find? p = l₂.find? p := by
  induction l₁ with
  | nil => rfl
  | cons a l ih =>
    rw [List.cons_append, List.find?_cons] at *
    cases hpa : p a with
    | true => simp [hpa] at h
    | false =>
      simp only [hpa, cond_false] at h ⊢
      exact ih h

/-- C7: after creating a user with plaintext password p, authenticating
with that email and p returns exactly the created user; authenticating
with the same email and any other password, or with an email unknown in
the store, returns no user. -/
theorem create_then_authenticate_roundtrip :
    ∀ (users : List User) (user_in : UserCreate) (newId : Nat)
      (users' : List User) (u : User),
      create_user users user_in newId = .ok (users', u) →
      authenticate_user users' user_in.email user_in.password = some u ∧
      (∀ q : String, q ≠ user_in.password →
        authenticate_user users' user_in.email q = none) ∧
      (∀ em : String, (∀ v ∈ users', v.email ≠ em) →
        ∀ q : String, authenticate_user users' em q = none) := by
  intro users user_in newId users' u hok
  unfold create_user at hok
  cases hfind : get_user_by_email users user_in.email <;> rw [hfind] at hok
  case none =>
    simp at hok
    obtain ⟨husers, hu⟩ := hok
    have hfind' : users.find? (fun v => v.email == user_in.email) = none := hfind
    refine ⟨?_, ?_, ?_⟩
    · unfold authenticate_user get_user_by_email
      rw [← husers, find?_append_of_none hfind']
      simp [← hu, verify_password]
    · intro q hq
      unfold authenticate_user get_user_by_email
      rw [← husers, find?_append_of_none hfind']
      have hv : verify_password q u.password = false := by
        rw [← hu]
        simp only [verify_password]
        apply beq_eq_false_iff_ne.mpr
        intro hcontra
        exact hq (get_password_hash_inj hcontra).symm
      simp [← hu] at hv ⊢
      simp [hv]
    · intro em hem q
      unfold authenticate_user get_user_by_email
      rw [List.find?_eq_none.mpr]
      intro v hv
      simpa using hem v hv
  case some =>
    simp at hok

/-- Witness for C7 at a concrete creation. -/
theorem create_then_authenticate_roundtrip_witness :
    create_user [] c7Create 3 = .ok ([c7Stored], c7Stored) ∧
    authenticate_user [c7Stored] c7Create.email c7Create.password = some c7Stored ∧
    authenticate_user [c7Stored] c7Create.email "wrong" = none :=
  ⟨rfl,
    (create_then_authenticate_roundtrip [] c7Create 3 [c7Stored] c7Stored rfl).1,
    (create_then_authenticate_roundtrip [] c7Create 3 [c7Stored] c7Stored rfl).2.1
      "wrong" (by decide)⟩

/-- C2, counterexample: an owner update that supplies only a new start
date (day 20, beyond the stored end date 12) passes the pydantic
validator, is accepted by PUT /vacation-requests/1 with status 200, and
persists a request whose end date is earlier than its start date. -/
theorem single_date_update_persists_end_before_start :
    updateValidatorOk c2Payload = true ∧
    (updateVacationRequestRoute c2Owner 1 c2Payload [c2Req] 50).1.statusOf = 200 ∧
    (updateVacationRequestRoute c2Owner 1 c2Payload [c2Req] 50).2 =
      [{ c2Req with start_date := 20 }] ∧
    ({ c2Req with start_date := 20 } : VacationRequest).end_date
      < ({ c2Req with start_date := 20 } : VacationRequest).start_date := by
  refine ⟨rfl, rfl, by decide, by decide⟩

/-- C2, amended: creation rejects end before start, and an update that
supplies both dates or neither (via PUT or the review route, which both
mutate through `update_vacation_request`) preserves the stored invariant
end ≥ start; only an update supplying exactly one of the two dates can
break it. -/
theorem date_invariant_preserved_by_create_and_two_date_updates :
    (∀ (c : VacationRequestCreate) (rid newId : Nat) (today : Int),
      createValidatorOk c = true →
      (create_vacation_request c rid newId today).start_date ≤
        (create_vacation_request c rid newId today).end_date) ∧
    (∀ (req : VacationRequest) (upd : VacationRequestUpdate)
      (rvid : Option Nat) (today : Int),
      req.start_date ≤ req.end_date →
      updateValidatorOk upd = true →
      upd.start_date.isSome = upd.end_date.isSome →
      (update_vacation_request req upd rvid today).start_date ≤
        (update_vacation_request req upd rvid today).end_date) := by
  constructor
  · intro c rid newId today hval
    simpa [createValidatorOk, create_vacation_request] using hval
  · intro req upd rvid today hinv hval hsome
    cases hs : upd.start_date <;> cases he : upd.end_date <;>
        simp [hs, he] at hsome <;>
      simp only [update_vacation_request, hs, he, Option.getD_some, Option.getD_none]
    · split <;> simpa using hinv
    · simp [updateValidatorOk, hs, he] at hval
      exact hval

/-- Witness for the amended C2: a concrete creation and a concrete
both-dates update, each preserving end ≥ start. -/
theorem date_invariant_preserved_witness :
    createValidatorOk c1Payload = true ∧
    (create_vacation_request c1Payload 10 1 0).start_date ≤
      (create_vacation_request c1Payload 10 1 0).end_date ∧
    c2Req.start_date ≤ c2Req.end_date ∧
    updateValidatorOk c6GoodPayload = true ∧
    c6GoodPayload.start_date.isSome = c6GoodPayload.end_date.isSome ∧
    (update_vacation_request c2Req c6GoodPayload none 50).start_date ≤
      (update_vacation_request c2Req c6GoodPayload none 50).end_date :=
  ⟨by decide,
    date_invariant_preserved_by_create_and_two_date_updates.1 c1Payload 10 1 0 (by decide),
    by decide, by decide, rfl,
    date_invariant_preserved_by_create_and_two_date_updates.2 c2Req c6GoodPayload none 50
      (by decide) (by decide) rfl⟩

/-- C6: for a pending request owned by an active caller who is neither
manager nor admin, PUT /vacation-requests/:id returns 403 whenever the
payload sets a status (leaving the store unchanged), returns 403 for any
update once the request is no longer pending, and otherwise (no status
in the payload, allowance respected) applies the reason and date changes
with status 200. -/
theorem owner_update_status_gating_and_editability :
    ∀ (cu : User) (req : VacationRequest) (requests : List VacationRequest)
      (request_in : VacationRequestUpdate) (today : Int),
      cu.is_active = true →
      cu.role ≠ .manager → cu.role ≠ .admin →
      get_vacation_request requests req.id = some req →
      req.requester_id = cu.id →
      ((request_in.status.isSome = true →
        (updateVacationRequestRoute cu req.id request_in requests today).1.statusOf = 403 ∧
        (updateVacationRequestRoute cu req.id request_in requests today).2 = requests) ∧
      (req.status ≠ .pending →
        (updateVacationRequestRoute cu req.id request_in requests today).1.statusOf = 403 ∧
        (updateVacationRequestRoute cu req.id request_in requests today).2 = requests) ∧
      (req.status = .pending → request_in.status = none →
        ((request_in.start_date.isSome ∨ request_in.end_date.isSome) →
          (request_in.end_date.getD req.end_date - request_in.start_date.getD req.start_date) + 1
            ≤ cu.total_vacation_days) →
        updateVacationRequestRoute cu req.id request_in requests today =
          (.ok 200 (serializeVacationRequest (update_vacation_request req request_in none today)),
            requests.map (fun r => if r.id == req.id then
              update_vacation_request req request_in none today else r)) ∧
        (update_vacation_request req request_in none today).start_date
          = request_in.start_date.getD req.start_date ∧
        (update_vacation_request req request_in none today).end_date
          = request_in.end_date.getD req.end_date ∧
        (update_vacation_request req request_in none today).reason
          = request_in.reason.or req.reason ∧
        (update_vacation_request req request_in none today).status = req.status)) := by
  intro cu req requests request_in today hact hm ha hfind hown
  refine ⟨?_, ?_, ?_⟩
  · intro hsome
    by_cases hp : req.status = RequestStatus.pending
    · constructor <;>
        simp [updateVacationRequestRoute, hact, hfind, hown, hm, ha, hp, hsome,
          ApiResult.statusOf]
    · constructor <;>
        simp [updateVacationRequestRoute, hact, hfind, hown, hm, ha, hp,
          ApiResult.statusOf]
  · intro hp
    constructor <;>
      simp [updateVacationRequestRoute, hact, hfind, hown, hm, ha, hp,
        ApiResult.statusOf]
  · intro hp hstat hdelta
    have hsomeF : request_in.status.isSome = false := by simp [hstat]
    refine ⟨?_, ?_, ?_, ?_, ?_⟩
    · simp [updateVacationRequestRoute, hact, hfind, hown, hm, ha, hp, hsomeF]
      intro hd
      exact hdelta (by simpa using hd)
    · cases hs : request_in.start_date <;>
        simp [update_vacation_request, hstat, hs]
    · cases he : request_in.end_date <;>
        simp [update_vacation_request, hstat, he]
    · cases hr : request_in.reason <;>
        simp [update_vacation_request, hstat, hr]
    · simp [update_vacation_request, hstat]

/-- Witness for C6: a concrete owner is refused when setting a status
and succeeds when moving dates and reason on their pending request. -/
theorem owner_update_status_gating_and_editability_witness :
    c6Owner.is_active = true ∧
    c6Owner.role ≠ .manager ∧ c6Owner.role ≠ .admin ∧
    get_vacation_request [c6Req] c6Req.id = some c6Req ∧
    c6Req.requester_id = c6Owner.id ∧
    c6StatusPayload.status.isSome = true ∧
    ((updateVacationRequestRoute c6Owner c6Req.id c6StatusPayload [c6Req] 50).1.statusOf = 403 ∧
      (updateVacationRequestRoute c6Owner c6Req.id c6StatusPayload [c6Req] 50).2 = [c6Req]) ∧
    updateVacationRequestRoute c6Owner c6Req.id c6GoodPayload [c6Req] 50 =
      (.ok 200 (serializeVacationRequest (update_vacation_request c6Req c6GoodPayload none 50)),
        [c6Req].map (fun r => if r.id == c6Req.id then
          update_vacation_request c6Req c6GoodPayload none 50 else r)) :=
  ⟨rfl, by decide, by decide, rfl, rfl, rfl,
    (owner_update_status_gating_and_editability c6Owner c6Req [c6Req] c6StatusPayload 50
      rfl (by decide) (by decide) rfl rfl).1 rfl,
    ((owner_update_status_gating_and_editability c6Owner c6Req [c6Req] c6GoodPayload 50
      rfl (by decide) (by decide) rfl rfl).2.2 rfl rfl (fun _ => by decide)).1⟩

/-- Helper: `contains` on a list of ids agrees with membership. -/
theorem contains_iff_mem {l : List Nat} {a : Nat} : l.contains a = true ↔ a ∈ l := by
  simp [List.contains]

/-- Helper: when a user has at most 1000 unread notifications, one
`mark_all_as_read` call leaves that user with no unread notification. -/
theorem mark_all_as_read_clears (notifs : List Notification) (uid : Nat)
    (h : get_unread_count notifs uid ≤ 1000) :
    ∀ n ∈ (mark_all_as_read notifs uid).1,
      (n.user_id == uid && n.read == false) = false := by
  intro n hn
  by_contra hpredne
  rw [Bool.not_eq_false] at hpredne
  simp only [mark_all_as_read] at hn
  obtain ⟨m, hm, hfm⟩ := List.mem_map.mp hn
  by_cases hc :
      ((get_user_notifications notifs uid 0 1000 true).map (fun x => x.id)).contains m.id = true
  · rw [if_pos hc] at hfm
    rw [← hfm] at hpredne
    simp at hpredne
  · rw [if_neg hc] at hfm
    subst hfm
    rw [Bool.and_eq_true] at hpredne
    obtain ⟨hu, hr⟩ := hpredne
    have hm' : m ∈ (notifs.filter (fun x => x.user_id == uid)).filter
        (fun x => x.read == false) := by
      rw [List.mem_filter, List.mem_filter]
      exact ⟨⟨hm, hu⟩, hr⟩
    have hlen : ((notifs.filter (fun x => x.user_id == uid)).filter
        (fun x => x.read == false)).length ≤ 1000 := by
      rw [List.filter_filter]
      calc (notifs.filter (fun a => (a.read == false) && (a.user_id == uid))).length
          = (notifs.filter (fun a => (a.user_id == uid) && (a.read == false))).length := by
            rw [List.filter_congr (fun a _ => Bool.and_comm (a.read == false) (a.user_id == uid))]
        _ ≤ 1000 := h
    have hmemS : m ∈ get_user_notifications notifs uid 0 1000 true := by
      simp only [get_user_notifications, if_pos]
      rw [List.drop_zero, List.take_of_length_le]
      · exact (List.mem_insertionSort notifDescOrder).mpr hm'
      · rw [List.length_insertionSort]
        exact hlen
    exact hc (contains_iff_mem.mpr (List.mem_map_of_mem (fun x => x.id) hmemS))

/-- Helper: after one `mark_all_as_read`, a second call for the same
user counts zero rows, provided the user had at most 1000 unread
notifications. -/
theorem mark_all_as_read_twice_zero (notifs : List Notification) (uid : Nat)
    (h : get_unread_count notifs uid ≤ 1000) :
    (mark_all_as_read (mark_all_as_read notifs uid).1 uid).2 = 0 := by
  have hclear := mark_all_as_read_clears notifs uid h
  have hnil : ((mark_all_as_read notifs uid).1.filter
      (fun x => x.user_id == uid)).filter (fun x => x.read == false) = [] := by
    apply List.filter_eq_nil_iff.mpr
    intro x hx hr
    obtain ⟨hxM, hu⟩ := List.mem_filter.mp hx
    have hfx := hclear x hxM
    rw [hu, hr] at hfx
    simp at hfx
  conv_lhs => rw [mark_all_as_read]
  simp only [get_user_notifications, if_pos]
  rw [hnil]
  rfl

/-- C3, amended: after one call to PATCH /notifications/mark-all-as-read
by an active caller who had at most 1000 unread notifications (the CRUD
loads at most 1000 unread rows per call), an immediately following
second call returns count 0; and for every caller and store, no
notification that was read becomes unread. -/
theorem mark_all_as_read_idempotent_upto_1000_and_read_monotone :
    (∀ (cu : User) (notifs : List Notification),
      cu.is_active = true →
      get_unread_count notifs cu.id ≤ 1000 →
      (markAllNotificationsAsReadRoute cu
        (markAllNotificationsAsReadRoute cu notifs).2).1 = .ok 200 0) ∧
    (∀ (cu : User) (notifs : List Notification),
      List.Forall₂ (fun a b => a.read = true → b.read = true) notifs
        (markAllNotificationsAsReadRoute cu notifs).2) := by
  constructor
  · intro cu notifs hact hcount
    simp only [markAllNotificationsAsReadRoute, hact, Bool.not_true, Bool.false_eq_true,
      if_false, ite_false]
    rw [mark_all_as_read_twice_zero notifs cu.id hcount]
  · intro cu notifs
    by_cases hact : cu.is_active = true
    · simp only [markAllNotificationsAsReadRoute, hact, Bool.not_true, Bool.false_eq_true,
        if_false, ite_false]
      simp only [mark_all_as_read]
      rw [List.forall₂_map_right_iff]
      rw [List.forall₂_same]
      intro a _ hread
      by_cases hc :
          ((get_user_notifications notifs cu.id 0 1000 true).map (fun x => x.id)).contains a.id = true
      · rw [if_pos hc]
      · rw [if_neg hc]
        exact hread
    · rw [Bool.not_eq_true] at hact
      simp only [markAllNotificationsAsReadRoute, hact, Bool.not_false, if_true, ite_true]
      exact List.forall₂_same.mpr (fun a _ h => h)

/-- Witness for the amended C3: a store holding one unread notification. -/
theorem mark_all_as_read_idempotent_upto_1000_witness :
    c3User.is_active = true ∧
    get_unread_count [c3OneNotif] c3User.id ≤ 1000 ∧
    (markAllNotificationsAsReadRoute c3User
      (markAllNotificationsAsReadRoute c3User [c3OneNotif]).2).1 = .ok 200 0 :=
  ⟨rfl, by decide,
    mark_all_as_read_idempotent_upto_1000_and_read_monotone.1 c3User [c3OneNotif]
      rfl (by decide)⟩

set_option maxRecDepth 100000 in
/-- C3, counterexample: with 1001 unread notifications for the caller
(beyond the 1000-row limit of the CRUD), the first mark-all call returns
1000 and the immediately following second call returns 1, not 0. -/
theorem mark_all_second_call_nonzero_beyond_1000 :
    (markAllNotificationsAsReadRoute c3User c3Notifs).1 = .ok 200 1000 ∧
    (markAllNotificationsAsReadRoute c3User
      (markAllNotificationsAsReadRoute c3User c3Notifs).2).1 = .ok 200 1 ∧
    ¬ (markAllNotificationsAsReadRoute c3User
      (markAllNotificationsAsReadRoute c3User c3Notifs).2).1 = .ok 200 0 := by
  have hids : (get_user_notifications c3Notifs 1 0 1000 true).map (fun n => n.id)
      = List.range 1000 := by decide
  have hcount1 : (mark_all_as_read c3Notifs 1).2 = 1000 := by decide
  have hstore : (mark_all_as_read c3Notifs 1).1 = c3Marked := by
    simp only [mark_all_as_read]
    rw [hids]
    unfold c3Notifs c3Marked
    rw [List.map_map]
    apply List.map_congr_left
    intro a ha
    rw [List.mem_range] at ha
    by_cases hlt : a < 1000
    · have hcontains : (List.range 1000).contains a = true :=
        contains_iff_mem.mpr (List.mem_range.mpr hlt)
      simp [Function.comp, hcontains, hlt]
    · have hncontains : ¬ ((List.range 1000).contains a = true) :=
        fun hcontra => hlt (List.mem_range.mp (contains_iff_mem.mp hcontra))
      simp [Function.comp, hlt, hncontains]
  have hcount2 : (mark_all_as_read c3Marked 1).2 = 1 := by decide
  have hroute2 : (markAllNotificationsAsReadRoute c3User c3Notifs).2 = c3Marked := hstore
  have hfirst : (markAllNotificationsAsReadRoute c3User c3Notifs).1 = .ok 200 1000 := by
    show ApiResult.ok 200 (mark_all_as_read c3Notifs 1).2 = ApiResult.ok 200 1000
    rw [hcount1]
  have hsecond : (markAllNotificationsAsReadRoute c3User
      (markAllNotificationsAsReadRoute c3User c3Notifs).2).1 = .ok 200 1 := by
    rw [hroute2]
    show ApiResult.ok 200 (mark_all_as_read c3Marked 1).2 = ApiResult.ok 200 1
    rw [hcount2]
  refine ⟨hfirst, hsecond, ?_⟩
  rw [hsecond]
  simp
